import Mathlib

/-!
# Verification of the pybravia client library

A shallow embedding of the session/transport logic of `pybravia`
(`src/pybravia/client.py` and `src/pybravia/util.py`), together with
theorems settling correctness properties of the embedded code.

Python values that flow through the JSON-RPC layer are modelled by the
inductive type `Val`; machine state of a `BraviaTV` instance is modelled by
`ClientState`; the coroutine methods are modelled as explicit state-passing
functions, with device responses supplied as arguments and raised exceptions
returned through `Except`.
-/

namespace Pybravia

/-- A JSON-like Python value as handled by the client: `None`, booleans,
integers, strings, lists and string-keyed dicts (aliasing ignored). -/
inductive Val where
  | vnull : Val
  | vbool : Bool → Val
  | vint : Int → Val
  | vstr : String → Val
  | vlist : List Val → Val
  | vobj : List (String × Val) → Val

/-- Python truthiness (`bool(v)`) for the modelled values: `None` and empty
containers and `0` and `""` are falsy. -/
def Val.truthy : Val → Bool
  | .vnull => false
  | .vbool b => b
  | .vint n => n != 0
  | .vstr s => s != ""
  | .vlist xs => !xs.isEmpty
  | .vobj fs => !fs.isEmpty

/-- `isinstance(v, list)`. -/
def Val.isList : Val → Bool
  | .vlist _ => true
  | _ => false

/-- Python `d.get(key)`: `none` when `v` is not a dict or the key is absent. -/
def Val.get (v : Val) (key : String) : Option Val :=
  match v with
  | .vobj fs => fs.lookup key
  | _ => none

/-- Python `d.get(key, dflt)`. -/
def Val.getD (v : Val) (key : String) (dflt : Val) : Val :=
  (v.get key).getD dflt

/-- The typed exceptions of `src/pybravia/exceptions.py`; `pyError` stands for
an uncaught Python-level error (e.g. `IndexError`), which is not a
`BraviaTVError`. -/
inductive BraviaError where
  | authError
  | notFound
  | notSupported
  | connectionError
  | connectionTimeout
  | turnedOff
  | pyError
deriving Repr, DecidableEq

/-! ## REST envelope construction (`client.py`, `send_rest_req`, lines 238-259) -/

/-- The JSON-RPC envelope `{"method": ..., "params": ..., "id": 1, "version": ...}`
built by `send_rest_req`. -/
structure RestEnvelope where
  method : String
  params : List Val
  id : Nat
  version : String

/-- `params = params if isinstance(params, list) else [params] if params else []`
(`client.py` line 249). -/
def coerce_params (params : Val) : List Val :=
  if params.isList then
    match params with
    | .vlist xs => xs
    | _ => []
  else if params.truthy then [params] else []

/-- The URL and JSON body assembled by `send_rest_req` before it delegates to
`send_req` (`client.py` lines 238-259); `params` defaults to `None` (`vnull`)
when the caller gives no argument. -/
def send_rest_req_data (host service method : String) (params : Val)
    (version : String) : String × RestEnvelope :=
  ("http://" ++ host ++ "/sony/" ++ service,
    { method := method, params := coerce_params params, id := 1, version := version })

/-! ## System-info probe (`client.py`, `get_system_info` lines 285-290 and
`connect` lines 84-86) -/

/-- `resp.get("result", [{}])[0]`: the first element of the `result` list, the
default being `[{}]`; `none` models the uncaught Python error raised when the
value is not a list or the list is empty. -/
def rest_result_head (resp : Val) : Option Val :=
  match resp.getD "result" (.vlist [.vobj []]) with
  | .vlist xs => xs.head?
  | _ => none

/-- The capability-probe check inside `connect` (`client.py` lines 84-86):
`system_info = await self.get_system_info(); if not system_info: raise
BraviaTVNotSupported`, acting on the device's JSON response `resp`. -/
def connect_probe (resp : Val) : Except BraviaError Val :=
  match rest_result_head resp with
  | none => .error .pyError
  | some info => if info.truthy then .ok info else .error .notSupported

/-! ## Client state (`client.py`, `BraviaTV.__init__` lines 44-54) -/

/-- The `aiohttp.ClientSession` owned by the client, reduced to the piece of
state the claims are about: its cookie jar. -/
structure SessionHandle where
  cookies : List (String × String)
deriving Repr, DecidableEq

/-- The mutable attributes of a `BraviaTV` instance.  `mac` holds an arbitrary
`Val` because `get_system_info` assigns `result.get("macAddr", self.mac)` to it
unconditionally. -/
structure ClientState where
  host : String
  mac : Option Val
  session : Option SessionHandle
  auth : Option (String × String)
  psk : Option String
  send_ircc_time : Option Int
  commands : List (String × String)

/-- `BraviaTV.__init__(host, mac, session)` (`client.py` lines 44-54). -/
def client_init (host : String) (mac : Option String)
    (session : Option SessionHandle) : ClientState :=
  { host := host, mac := mac.map .vstr, session := session, auth := none,
    psk := none, send_ircc_time := none, commands := [] }

/-! ## `disconnect` (`client.py` lines 113-119) -/

/-- `disconnect`: `if self._session: await self._session.close()` then
`self._auth = None; self._psk = None; self._session = None`.  Closing and
dropping the handle are both modelled by `session := none`. -/
def disconnect (st : ClientState) : ClientState :=
  { st with session := none, auth := none, psk := none }

/-! ## `get_system_info` (`client.py` lines 285-290) -/

/-- The state effect of a successful `get_system_info` on response `resp`:
`result = resp.get("result", [{}])[0]; self.mac = result.get("macAddr",
self.mac)`; returns the updated state and `result`, or `none` for the uncaught
Python error when the result value cannot be indexed. -/
def get_system_info (st : ClientState) (resp : Val) :
    Option (ClientState × Val) :=
  match rest_result_head resp with
  | none => none
  | some result =>
    some ({ st with mac := match result.get "macAddr" with
                           | some v => some v
                           | none => st.mac }, result)

/-! ## `get_volume_info` (`client.py` lines 331-341) -/

/-- The Python test `target == output.get("target")`: a string equals another
value exactly when that value is the same string. -/
def volume_target_hit (target : String) (output : Val) : Bool :=
  match output.get "target" with
  | some (.vstr s) => s == target
  | _ => false

/-- The loop of `get_volume_info`: `value = {}`, then for each `output` of the
device's list set `value = output` and `break` at the first hit. -/
def get_volume_info_loop (target : String) : List Val → Val → Val
  | [], value => value
  | output :: rest, _ =>
    if volume_target_hit target output then output
    else get_volume_info_loop target rest output

/-- `get_volume_info(target)` (`client.py` lines 331-341), applied to the
volume-information list already unwrapped by `get_volume_info_full`. -/
def get_volume_info (target : String) (result : List Val) : Val :=
  get_volume_info_loop target result (.vobj [])

/-! ## Header preparation in `send_req` (`client.py` lines 149-156) -/

/-- Python dict assignment `d[k] = v` on an insertion-ordered dict: overwrite
in place when the key exists, append otherwise. -/
def dict_set : List (String × String) → String → String → List (String × String)
  | [], k, v => [(k, v)]
  | (k', v') :: rest, k, v =>
    if k' = k then (k, v) :: rest else (k', v') :: dict_set rest k v

/-- The headers actually used (and left in the caller's dict) by `send_req`:
`headers = {}` when `None` was passed; `headers["X-Auth-PSK"] = self._psk`
when `self._psk` is truthy; then `headers["Cache-Control"] = "no-cache"` and
`headers["Connection"] = "keep-alive"` unconditionally. -/
def send_req_headers (psk : Option String)
    (headers : Option (List (String × String))) : List (String × String) :=
  let h0 := match headers with
    | none => []
    | some h => h
  let h1 := match psk with
    | some p => if p != "" then dict_set h0 "X-Auth-PSK" p else h0
    | none => h0
  dict_set (dict_set h1 "Cache-Control" "no-cache") "Connection" "keep-alive"

/-! ## The credential phase of `connect` (`client.py` lines 56-82) -/

/-- `self._psk = pin[4:] if pin and pin[:4] == "psk:" else psk`
(`client.py` line 64). -/
def connect_new_psk (pin psk : Option String) : Option String :=
  match pin with
  | some p => if p != "" && p.take 4 == "psk:" then some (p.drop 4) else psk
  | none => psk

/-- The state change of `connect` before the capability probe: assign
`self._psk`; when it is not `None`, clear `self._auth` and the cookie jar
provided a session exists; otherwise the `register` path is taken (flag
`true` in the returned pair). -/
def connect_auth_phase (st : ClientState) (pin psk : Option String) :
    ClientState × Bool :=
  let newPsk := connect_new_psk pin psk
  let st1 := { st with psk := newPsk }
  match newPsk with
  | none => (st1, true)
  | some _ =>
    match st1.session with
    | some s => ({ st1 with auth := none, session := some { s with cookies := [] } }, false)
    | none => (st1, false)

/-- Pre-shared-key auth is active exactly when `self._psk` is truthy: both the
`X-Auth-PSK` header attachment (`client.py` line 152) and the connected-mode
log branch (line 88) test `if self._psk:`. -/
def psk_active (st : ClientState) : Bool :=
  match st.psk with
  | some p => p != ""
  | none => false

/-- Basic-PIN auth is active exactly when a `BasicAuth` credential is stored
(`auth=self._auth` is passed on every request, `client.py` line 163). -/
def basic_active (st : ClientState) : Bool :=
  st.auth.isSome

/-! ## `send_ircc_req` and the wake heuristic (`client.py` lines 202-236) -/

/-- `send_ircc_req(code)` at wall-clock second `now`, with `_send_ircc_time`
equal to `t`.  `outcome c` is the value or typed exception that `send_req`
produces for the SOAP body carrying IRCC code `c` (all its failures are
`BraviaTVError`s, so the wake ping's `suppress(BraviaTVError)` discards its
outcome entirely).  Returns the result of the call, the codes of the requests
issued in order, and the new `_send_ircc_time`; `timedelta(minutes=10)` is 600
seconds. -/
def send_ircc_req (code : String) (now : Int) (t : Option Int)
    (outcome : String → Except BraviaError Bool) :
    Except BraviaError Bool × List String × Option Int :=
  if code = "" then (outcome "", [""], t)
  else
    let stale := match t with
      | none => true
      | some t0 => decide (now - t0 > 600)
    let pingTrace := if stale then (send_ircc_req "" now t outcome).2.1 else []
    (outcome code, pingTrace ++ [code], some now)
termination_by code.length
decreasing_by
  rename_i h
  have hd : code.data ≠ [] := by
    intro hd
    apply h
    cases code
    simp_all
  exact List.length_pos.mpr hd

/-! ## `get_content_list_full` (`client.py` lines 393-401) -/

/-- Python `range(0, total, 50)` as iterated by `get_content_list_full`
(`client.py` line 397). -/
def range_by_50 (start stop : Nat) : List Nat :=
  if start < stop then start :: range_by_50 (start + 50) stop else []
termination_by stop - start
decreasing_by omega

/-- The accumulator loop of `get_content_list_full`: `result = []`, then
`result.extend(resp)` for each page, where `pages index count` is what
`get_content_list(source, index, count)` returns for the device at hand. -/
def content_loop (pages : Nat → Nat → List Val) (total : Nat) :
    List Nat → List Val → List Val
  | [], result => result
  | index :: rest, result =>
    content_loop pages total rest (result ++ pages index (min 50 (total - index)))

/-- `get_content_list_full` (`client.py` lines 393-401) for a source whose
`getContentCount` reports `total` items. -/
def get_content_list_full (pages : Nat → Nat → List Val) (total : Nat) :
    List Val :=
  content_loop pages total (range_by_50 0 total) []

/-! ## Cookie normalization (`util.py` lines 9-19)

`REGEXP_COOKIE_EXPIRES = re.compile("(;\\s?expires=(.*)(;|$))", re.IGNORECASE)`
and `normalize_cookies` applies `REGEXP_COOKIE_EXPIRES.sub("", cookie)` to each
raw header before loading it into the stdlib cookie parser.  The regex is
embedded below with Python `re` semantics: leftmost match, greedy `\s?` and
`.*` with backtracking, `.` not matching a newline, `$` matching at the end of
the string or just before a trailing final newline. -/

/-- The ASCII members of the Python regex class `\s` (the device's cookie
headers are ASCII). -/
def py_space (c : Char) : Bool :=
  c == ' ' || c == '\t' || c == '\n' || c == '\r' || c == '\x0b' || c == '\x0c'

/-- Case-insensitive literal matcher: the remainder of `cs` after the literal
`ls`, when `cs` starts with `ls` up to case. -/
def match_ci : List Char → List Char → Option (List Char)
  | [], cs => some cs
  | _ :: _, [] => none
  | l :: ls, c :: cs => if c.toLower == l.toLower then match_ci ls cs else none

/-- The literal part of the regex after the optional whitespace. -/
def expires_lit : List Char :=
  "expires=".toList

/-- Match of the regex fragment `;\s?expires=` at the head of `cs`; the greedy
`\s?` consumes one whitespace character when possible, backtracking to the
empty alternative if the literal then fails.  Returns the remainder after the
`=`. -/
def match_expires_head (cs : List Char) : Option (List Char) :=
  match cs with
  | [] => none
  | c :: rest =>
    if c = ';' then
      match rest with
      | c2 :: tl =>
        if py_space c2 then
          match match_ci expires_lit tl with
          | some r => some r
          | none => match_ci expires_lit rest
        else match_ci expires_lit rest
      | [] => none
    else none

/-- The longest run the atom `.` can consume from `rest` (everything up to a
newline or the end). -/
def dot_run (rest : List Char) : Nat :=
  (rest.takeWhile (fun c => c != '\n')).length

/-- One attempt of the tail `(;|$)` after `.*` consumed `d` characters of
`rest`: the alternative `;` is tried first, then `$`.  Returns how many
characters of `rest` the fragment `(.*)(;|$)` consumed. -/
def try_tail_at (rest : List Char) (d : Nat) : Option Nat :=
  match rest.drop d with
  | ';' :: _ => some (d + 1)
  | [] => some d
  | ['\n'] => some d
  | _ => none

/-- Greedy backtracking for `.*`: try the longest run first, then shrink. -/
def greedy_tail (rest : List Char) : Nat → Option Nat
  | 0 => try_tail_at rest 0
  | d + 1 =>
    match try_tail_at rest (d + 1) with
    | some r => some r
    | none => greedy_tail rest d

/-- Full greedy match of `REGEXP_COOKIE_EXPIRES` at the head of `cs`: the
remainder of `cs` after the matched span, or `none` when the regex does not
match here. -/
def match_expires_at (cs : List Char) : Option (List Char) :=
  match match_expires_head cs with
  | none => none
  | some rest =>
    match greedy_tail rest (dot_run rest) with
    | some d => some (rest.drop d)
    | none => none

theorem match_ci_length {ls cs r : List Char} (h : match_ci ls cs = some r) :
    r.length ≤ cs.length := by
  induction ls generalizing cs with
  | nil =>
    simp only [match_ci, Option.some.injEq] at h
    simp [h]
  | cons l ls ih =>
    match cs with
    | [] => simp [match_ci] at h
    | c :: cs =>
      simp only [match_ci] at h
      split at h
      · exact le_trans (ih h) (by simp)
      · exact absurd h (by simp)

theorem match_expires_head_length {cs rest : List Char}
    (h : match_expires_head cs = some rest) : rest.length < cs.length := by
  match cs with
  | [] => simp [match_expires_head] at h
  | [c] =>
    simp only [match_expires_head] at h
    split at h <;> exact Option.noConfusion h
  | c :: c2 :: tl =>
    simp only [match_expires_head] at h
    by_cases hc : c = ';'
    · rw [if_pos hc] at h
      by_cases hps : py_space c2 = true
      · rw [if_pos hps] at h
        cases hmc : match_ci expires_lit tl with
        | some r =>
          simp only [hmc] at h
          cases h
          have h1 := match_ci_length hmc
          simp only [List.length_cons]
          omega
        | none =>
          simp only [hmc] at h
          have h1 := match_ci_length h
          simp only [List.length_cons] at h1 ⊢
          omega
      · rw [if_neg hps] at h
        have h1 := match_ci_length h
        simp only [List.length_cons] at h1 ⊢
        omega
    · rw [if_neg hc] at h
      exact Option.noConfusion h

theorem match_expires_at_length {cs rem : List Char}
    (h : match_expires_at cs = some rem) : rem.length < cs.length := by
  simp only [match_expires_at] at h
  split at h
  · exact Option.noConfusion h
  · rename_i rest hrest
    split at h
    · rename_i d hd
      cases h
      have h1 := match_expires_head_length hrest
      have h2 : (rest.drop d).length ≤ rest.length := by
        rw [List.length_drop]
        omega
      omega
    · exact Option.noConfusion h

/-- `REGEXP_COOKIE_EXPIRES.sub("", cookie)` (`util.py` line 17): scan left to
right, deleting every leftmost greedy match. -/
def sub_expires (cs : List Char) : List Char :=
  match cs with
  | [] => []
  | c :: rest =>
    match h : match_expires_at (c :: rest) with
    | some rem => sub_expires rem
    | none => c :: sub_expires rest
termination_by cs.length
decreasing_by
  · have := match_expires_at_length h
    simpa using this
  · simp

/-- The string-level effect of `normalize_cookies` (`util.py` lines 12-19):
each raw `Set-Cookie` header value is rewritten by the regex substitution
before being handed to the stdlib cookie parser. -/
def normalize_cookies (cookies : List (List Char)) : List (List Char) :=
  cookies.map sub_expires

/-! ### A model of the stdlib cookie parser

`normalize_cookies` feeds each rewritten string to `http.cookies.SimpleCookie`,
an external stdlib collaborator.  For the well-formed
`name=value; attr=value; ...` strings at issue here it splits on `;`, trims
spaces, and reads each chunk as a `key=value` pair, the first chunk being the
cookie's name and value and the rest its attributes. -/

/-- Split on `;` (every chunk, including empty ones). -/
def split_semi : List Char → List (List Char)
  | [] => [[]]
  | c :: cs =>
    if c == ';' then [] :: split_semi cs
    else
      match split_semi cs with
      | [] => [[c]]
      | p :: ps => (c :: p) :: ps

/-- Trim leading and trailing spaces. -/
def trim_spaces (cs : List Char) : List Char :=
  ((cs.dropWhile (fun c => c == ' ')).reverse.dropWhile (fun c => c == ' ')).reverse

/-- Split a chunk at its first `=` into key and value. -/
def split_kv : List Char → List Char × List Char
  | [] => ([], [])
  | c :: cs =>
    if c == '=' then ([], cs)
    else
      let p := split_kv cs
      (c :: p.1, p.2)

/-- Parse a cookie header string into its name/value pair and its attribute
pairs. -/
def parse_cookie (cs : List Char) :
    (List Char × List Char) × List (List Char × List Char) :=
  match (split_semi cs).map trim_spaces with
  | [] => (([], []), [])
  | nv :: attrs => (split_kv nv, attrs.map split_kv)

/-! ## Claim C2: state after `disconnect` -/

/-- C2 counterexample: `disconnect` does not clear the command-name cache.  In
a connected state whose cache holds the `Play` code, the cache after
`disconnect()` is the same non-empty mapping, refuting "for every session
whose command cache is non-empty before the call, the cache is empty
afterwards". -/
theorem disconnect_cache_counterexample :
    (disconnect
        { host := "tv", mac := none, session := some { cookies := [("auth", "xyz")] },
          auth := some ("", "1234"), psk := none, send_ircc_time := none,
          commands := [("Play", "AAAAAwAAHFoA")] }).commands
      = [("Play", "AAAAAwAAHFoA")]
    ∧ [("Play", "AAAAAwAAHFoA")] ≠ ([] : List (String × String)) :=
  ⟨rfl, by simp⟩

/-- C2 (amended): after `disconnect()` the transport handle is released, the
stored Basic-auth credential and the pre-shared key are cleared, but the
command-name cache is left exactly as it was, so a later `connect()` starts
with the prior cycle's cached command codes. -/
theorem disconnect_state_spec (st : ClientState) :
    (disconnect st).session = none ∧ (disconnect st).auth = none ∧
    (disconnect st).psk = none ∧ (disconnect st).commands = st.commands :=
  ⟨rfl, rfl, rfl, rfl⟩

/-! ## Claim C3: the `mac` update of `get_system_info` -/

/-- C3 counterexample: a session whose `mac` is already known has it
overwritten by a successful `get_system_info` whenever the result carries a
`macAddr` field, refuting "for every session whose mac is already set, a
successful `get_system_info` leaves mac unchanged". -/
theorem get_system_info_mac_counterexample :
    (get_system_info
        { host := "tv", mac := some (Val.vstr "aa:aa:aa:aa:aa:aa"), session := none,
          auth := none, psk := none, send_ircc_time := none, commands := [] }
        (Val.vobj [("result", Val.vlist [Val.vobj [("macAddr", Val.vstr "cc:cc:cc:cc:cc:cc")]])])).map
        (fun p => p.1.mac)
      = some (some (Val.vstr "cc:cc:cc:cc:cc:cc"))
    ∧ some (Val.vstr "cc:cc:cc:cc:cc:cc") ≠ some (Val.vstr "aa:aa:aa:aa:aa:aa") :=
  ⟨rfl, by simp⟩

/-- C3 (amended): a successful `get_system_info` sets the session's `mac` from
the result's `macAddr` field whenever that field is present — overwriting any
previously known value — and leaves `mac` unchanged exactly when the field is
absent. -/
theorem get_system_info_mac_spec (st : ClientState) (resp result : Val)
    (hres : rest_result_head resp = some result) :
    ∃ st2, get_system_info st resp = some (st2, result)
      ∧ (result.get "macAddr" = none → st2.mac = st.mac)
      ∧ ∀ v, result.get "macAddr" = some v → st2.mac = some v := by
  cases hmac : result.get "macAddr" with
  | none =>
    refine ⟨st, ?_, fun _ => rfl, ?_⟩
    · simp [get_system_info, hres, hmac]
    · intro v hv
      exact Option.noConfusion hv
  | some v0 =>
    refine ⟨{ st with mac := some v0 }, ?_, ?_, ?_⟩
    · simp [get_system_info, hres, hmac]
    · intro hnone
      exact Option.noConfusion hnone
    · intro v hv
      cases hv
      rfl

/-- C3 witness: a session with unknown `mac` records the reported address. -/
theorem get_system_info_mac_spec_witness :
    (get_system_info
        { host := "tv", mac := none, session := none, auth := none, psk := none,
          send_ircc_time := none, commands := [] }
        (Val.vobj [("result", Val.vlist [Val.vobj [("macAddr", Val.vstr "cc:cc:cc:cc:cc:cc")]])])).map
        (fun p => p.1.mac)
      = some (some (Val.vstr "cc:cc:cc:cc:cc:cc")) := by
  obtain ⟨st2, h1, h2, h3⟩ :=
    get_system_info_mac_spec
      { host := "tv", mac := none, session := none, auth := none, psk := none,
        send_ircc_time := none, commands := [] }
      (Val.vobj [("result", Val.vlist [Val.vobj [("macAddr", Val.vstr "cc:cc:cc:cc:cc:cc")]])])
      (Val.vobj [("macAddr", Val.vstr "cc:cc:cc:cc:cc:cc")]) rfl
  rw [h1]
  have hm := h3 (Val.vstr "cc:cc:cc:cc:cc:cc") rfl
  simp [hm]

/-! ## Claim C4: coercion of `params` in `send_rest_req` -/

/-- C4 counterexample: the bare falsy value `0` is coerced to the empty
sequence, not to the one-element sequence `[0]` the claim demands. -/
theorem send_rest_req_falsy_params_counterexample :
    (send_rest_req_data "tv" "system" "setPowerStatus" (Val.vint 0) "1.0").2.params = []
    ∧ (send_rest_req_data "tv" "system" "setPowerStatus" (Val.vint 0) "1.0").2.params
        ≠ [Val.vint 0] :=
  ⟨rfl, fun hcontr => List.noConfusion hcontr⟩

/-- C4 (amended): the `params` field of the emitted envelope
`{method, params, id: 1, version}` is the empty sequence when no argument is
given (`None`) or when a bare falsy value is given, the argument itself when
it is already a sequence, and the one-element sequence containing the
argument when a bare truthy value is given. -/
theorem send_rest_req_params_spec (host service method version : String) (p : Val) :
    (send_rest_req_data host service method p version).2.method = method
    ∧ (send_rest_req_data host service method p version).2.id = 1
    ∧ (send_rest_req_data host service method p version).2.version = version
    ∧ (p = Val.vnull → (send_rest_req_data host service method p version).2.params = [])
    ∧ (∀ xs, p = Val.vlist xs → (send_rest_req_data host service method p version).2.params = xs)
    ∧ (p.isList = false → p.truthy = true →
        (send_rest_req_data host service method p version).2.params = [p])
    ∧ (p.isList = false → p.truthy = false →
        (send_rest_req_data host service method p version).2.params = []) := by
  refine ⟨rfl, rfl, rfl, ?_, ?_, ?_, ?_⟩
  · rintro rfl
    rfl
  · rintro xs rfl
    rfl
  · intro hlist htrue
    simp [send_rest_req_data, coerce_params, hlist, htrue]
  · intro hlist hfalse
    simp [send_rest_req_data, coerce_params, hlist, hfalse]

/-- C4 witness: a bare truthy string is wrapped into a one-element sequence. -/
theorem send_rest_req_params_spec_witness :
    (send_rest_req_data "tv" "appControl" "setTextForm" (Val.vstr "x") "1.0").2.params
      = [Val.vstr "x"] :=
  (send_rest_req_params_spec "tv" "appControl" "setTextForm" "1.0" (Val.vstr "x")).2.2.2.2.2.1
    rfl rfl

/-! ## Claim C6: empty capability probe fails with `NotSupported` -/

/-- C6: when the system-info capability probe inside `connect` yields an
empty (falsy) result object — in particular for the device response
`{"result": [{}]}` — the connect attempt raises `BraviaTVNotSupported`. -/
theorem connect_probe_not_supported (resp info : Val)
    (hres : rest_result_head resp = some info) (hempty : info.truthy = false) :
    connect_probe resp = .error .notSupported := by
  simp [connect_probe, hres, hempty]

/-- C6 witness: the response `{"result": [{}]}` fails with `NotSupported`. -/
theorem connect_probe_not_supported_witness :
    connect_probe (Val.vobj [("result", Val.vlist [Val.vobj []])])
      = .error .notSupported :=
  connect_probe_not_supported (Val.vobj [("result", Val.vlist [Val.vobj []])])
    (Val.vobj []) rfl rfl

/-! ## Claim C9: header mutation in `send_req` -/

theorem dict_set_lookup_self (d : List (String × String)) (k v : String) :
    (dict_set d k v).lookup k = some v := by
  induction d with
  | nil => simp [dict_set, List.lookup]
  | cons kv rest ih =>
    obtain ⟨k0, v0⟩ := kv
    by_cases hk : k0 = k
    · simp [dict_set, hk, List.lookup]
    · have hb : (k == k0) = false := by
        simp [Ne.symm hk]
      simp [dict_set, hk, List.lookup, hb, ih]

theorem dict_set_lookup_other (d : List (String × String)) (k v k' : String)
    (h : k' ≠ k) : (dict_set d k v).lookup k' = d.lookup k' := by
  have hb : (k' == k) = false := by
    simp [h]
  induction d with
  | nil =>
    simp [dict_set, List.lookup, hb]
  | cons kv rest ih =>
    obtain ⟨k0, v0⟩ := kv
    by_cases hk : k0 = k
    · subst hk
      simp [dict_set, List.lookup, hb]
    · simp only [dict_set, if_neg hk, List.lookup]
      by_cases hk0 : k' = k0
      · simp [hk0]
      · have hb0 : (k' == k0) = false := by
          simp [hk0]
        simp [hb0, ih]

/-- C9 counterexample: with the session's pre-shared key set to the empty
string (as `connect(pin="psk:")` produces), `send_req` inserts no
`X-Auth-PSK` entry, refuting "an X-Auth-PSK entry is inserted whenever a
pre-shared key is set on the session". -/
theorem send_req_headers_empty_psk_counterexample :
    (send_req_headers (some "") (some [])).lookup "X-Auth-PSK" = none
    ∧ (some "" : Option String) ≠ none :=
  ⟨rfl, by simp⟩

/-- C9 (amended): the caller's headers dict is updated in place:
`Cache-Control` and `Connection` are always set to `no-cache` / `keep-alive`,
overwriting any caller-supplied values; `X-Auth-PSK` is inserted whenever a
non-empty pre-shared key is set on the session; every other entry of the
caller's dict is left untouched. -/
theorem send_req_headers_spec (psk : Option String) (h : List (String × String)) :
    (send_req_headers psk (some h)).lookup "Cache-Control" = some "no-cache"
    ∧ (send_req_headers psk (some h)).lookup "Connection" = some "keep-alive"
    ∧ (∀ p, psk = some p → p ≠ "" →
        (send_req_headers psk (some h)).lookup "X-Auth-PSK" = some p)
    ∧ (∀ k, k ≠ "Cache-Control" → k ≠ "Connection" → k ≠ "X-Auth-PSK" →
        (send_req_headers psk (some h)).lookup k = h.lookup k) := by
  refine ⟨?_, ?_, ?_, ?_⟩
  · simp only [send_req_headers]
    rw [dict_set_lookup_other _ _ _ _ (by decide), dict_set_lookup_self]
  · simp only [send_req_headers]
    rw [dict_set_lookup_self]
  · rintro p rfl hp
    simp only [send_req_headers]
    have hbne : (p != "") = true := by
      simp [hp]
    rw [if_pos hbne]
    rw [dict_set_lookup_other _ _ _ _ (by decide),
        dict_set_lookup_other _ _ _ _ (by decide), dict_set_lookup_self]
  · intro k h1 h2 h3
    simp only [send_req_headers]
    rw [dict_set_lookup_other _ _ _ _ h2, dict_set_lookup_other _ _ _ _ h1]
    cases psk with
    | none => rfl
    | some p =>
      show List.lookup k (if (p != "") = true then dict_set h "X-Auth-PSK" p else h)
        = List.lookup k h
      by_cases hp : (p != "") = true
      · rw [if_pos hp]
        exact dict_set_lookup_other _ _ _ _ h3
      · rw [if_neg hp]

/-- C9 witness: with the key `secret` set, a caller dict carrying its own
`Connection` entry ends up with the PSK header, the forced `Connection`
value, and its unrelated entry intact. -/
theorem send_req_headers_spec_witness :
    (send_req_headers (some "secret") (some [("Connection", "close"), ("A", "b")])).lookup
        "X-Auth-PSK" = some "secret"
    ∧ (send_req_headers (some "secret") (some [("Connection", "close"), ("A", "b")])).lookup
        "Connection" = some "keep-alive"
    ∧ (send_req_headers (some "secret") (some [("Connection", "close"), ("A", "b")])).lookup
        "A" = some "b" :=
  ⟨((send_req_headers_spec (some "secret") [("Connection", "close"), ("A", "b")]).2.2.1
      "secret" rfl (by decide)),
   ((send_req_headers_spec (some "secret") [("Connection", "close"), ("A", "b")]).2.1),
   (by
     rw [(send_req_headers_spec (some "secret") [("Connection", "close"), ("A", "b")]).2.2.2
       "A" (by decide) (by decide) (by decide)]
     rfl)⟩

/-! ## Claim C10: `get_volume_info` picks the first hit or the last entry -/

theorem get_volume_info_loop_eq (target : String) (l : List Val) (acc : Val) :
    get_volume_info_loop target l acc =
      match l.find? (volume_target_hit target) with
      | some output => output
      | none => l.getLastD acc := by
  induction l generalizing acc with
  | nil => simp [get_volume_info_loop]
  | cons x xs ih =>
    by_cases hx : volume_target_hit target x
    · simp only [get_volume_info_loop, if_pos hx, List.find?_cons_of_pos _ hx]
    · simp only [get_volume_info_loop, if_neg hx, List.find?_cons_of_neg _ hx, ih,
        List.getLastD_cons]

/-- C10: `get_volume_info(target)` returns the first entry whose `"target"`
field is the requested target when one exists; otherwise the last entry of a
non-empty list; and the empty mapping only for the empty list. -/
theorem get_volume_info_first_or_last (target : String) (result : List Val) :
    get_volume_info target result =
      match result.find? (volume_target_hit target) with
      | some output => output
      | none => result.getLastD (Val.vobj []) := by
  simpa [get_volume_info] using get_volume_info_loop_eq target result (Val.vobj [])

/-! ## Claim C5: `connect(psk=K)` and the auth-mode invariant -/

/-- C5 counterexample: `connect(psk="")` records the empty key but does not
put the session into pre-shared-key auth mode — `if self._psk:` is false, so
no `X-Auth-PSK` header is ever attached and `connect` itself logs the PIN
branch — refuting "for every key K". -/
theorem connect_empty_psk_counterexample :
    (connect_auth_phase
        { host := "tv", mac := none, session := some { cookies := [("auth", "xyz")] },
          auth := some ("", "1234"), psk := none, send_ircc_time := none, commands := [] }
        none (some "")).1.psk = some ""
    ∧ psk_active
        (connect_auth_phase
          { host := "tv", mac := none, session := some { cookies := [("auth", "xyz")] },
            auth := some ("", "1234"), psk := none, send_ircc_time := none, commands := [] }
          none (some "")).1 = false :=
  ⟨rfl, rfl⟩

/-- C5 (amended): for every non-empty key `K`, `connect(psk=K)` puts the
session into pre-shared-key auth mode and clears the prior basic-PIN auth
state: the stored credential and the cookie jar whenever a transport session
exists (a session-less client holds no cookies, and in any reachable state no
credential either, which is the `hinv` hypothesis).  At most one auth mode is
active afterwards, and the register path is not taken. -/
theorem connect_psk_mode_spec (st : ClientState) (K : String) (hK : K ≠ "")
    (hinv : st.session = none → st.auth = none) :
    (connect_auth_phase st none (some K)).1.psk = some K
    ∧ psk_active (connect_auth_phase st none (some K)).1 = true
    ∧ (connect_auth_phase st none (some K)).1.auth = none
    ∧ basic_active (connect_auth_phase st none (some K)).1 = false
    ∧ (∀ s, (connect_auth_phase st none (some K)).1.session = some s → s.cookies = [])
    ∧ (connect_auth_phase st none (some K)).2 = false := by
  have hpk : (K != "") = true := by
    simp [hK]
  cases hs : st.session with
  | none =>
    have hauth := hinv hs
    refine ⟨?_, ?_, ?_, ?_, ?_, ?_⟩ <;>
      simp [connect_auth_phase, connect_new_psk, psk_active, basic_active, hs, hauth, hpk]
  | some s0 =>
    refine ⟨?_, ?_, ?_, ?_, ?_, ?_⟩ <;>
      simp [connect_auth_phase, connect_new_psk, psk_active, basic_active, hs, hpk]

/-- C5 witness: connecting with the key `secret` on a session holding PIN
auth state activates PSK mode and drops the stored credential. -/
theorem connect_psk_mode_spec_witness :
    psk_active
        (connect_auth_phase
          { host := "tv", mac := none, session := some { cookies := [("auth", "xyz")] },
            auth := some ("", "1234"), psk := none, send_ircc_time := none, commands := [] }
          none (some "secret")).1 = true
    ∧ (connect_auth_phase
        { host := "tv", mac := none, session := some { cookies := [("auth", "xyz")] },
          auth := some ("", "1234"), psk := none, send_ircc_time := none, commands := [] }
        none (some "secret")).1.auth = none :=
  ⟨(connect_psk_mode_spec
      { host := "tv", mac := none, session := some { cookies := [("auth", "xyz")] },
        auth := some ("", "1234"), psk := none, send_ircc_time := none, commands := [] }
      "secret" (by decide) (fun hcontr => Option.noConfusion hcontr)).2.1,
   (connect_psk_mode_spec
      { host := "tv", mac := none, session := some { cookies := [("auth", "xyz")] },
        auth := some ("", "1234"), psk := none, send_ircc_time := none, commands := [] }
      "secret" (by decide) (fun hcontr => Option.noConfusion hcontr)).2.2.1⟩

/-! ## Claim C7: the IRCC wake heuristic -/

theorem send_ircc_req_ping_trace (now : Int) (t : Option Int)
    (o : String → Except BraviaError Bool) :
    (send_ircc_req "" now t o).2.1 = [""] := by
  rw [send_ircc_req.eq_def]
  simp

theorem send_ircc_req_eq (c : String) (now : Int) (t : Option Int)
    (o : String → Except BraviaError Bool) (hc : c ≠ "") :
    send_ircc_req c now t o =
      (o c,
       (if (match t with
            | none => true
            | some t0 => decide (now - t0 > 600)) = true then [""] else []) ++ [c],
       some now) := by
  rw [send_ircc_req.eq_def]
  rw [if_neg hc]
  simp [send_ircc_req_ping_trace]

/-- C7: for consecutive `send_ircc_req` calls with non-empty codes, a second
call within 10 minutes of the first issues no extra wake ping, while a call
with no prior wake timestamp or with more than 10 minutes elapsed issues
exactly one zero-length ping before the real command; the timestamp is
updated to the call time, and the ping's own outcome never affects the result
of the call (its failures are swallowed by `suppress(BraviaTVError)`). -/
theorem send_ircc_wake_spec (c1 c2 : String) (t1 t2 : Int) (t0 : Option Int)
    (outcome : String → Except BraviaError Bool) (h1 : c1 ≠ "") (h2 : c2 ≠ "") :
    (t0 = none → send_ircc_req c1 t1 t0 outcome = (outcome c1, ["", c1], some t1))
    ∧ (∀ u, t0 = some u → t1 - u > 600 →
        send_ircc_req c1 t1 t0 outcome = (outcome c1, ["", c1], some t1))
    ∧ (∀ u, t0 = some u → t1 - u ≤ 600 →
        send_ircc_req c1 t1 t0 outcome = (outcome c1, [c1], some t1))
    ∧ (t2 - t1 ≤ 600 →
        (send_ircc_req c2 t2 (send_ircc_req c1 t1 t0 outcome).2.2 outcome).2.1 = [c2])
    ∧ (t2 - t1 > 600 →
        (send_ircc_req c2 t2 (send_ircc_req c1 t1 t0 outcome).2.2 outcome).2.1 = ["", c2])
    ∧ (∀ oc : String → Except BraviaError Bool, (∀ s, s ≠ "" → outcome s = oc s) →
        send_ircc_req c1 t1 t0 outcome = send_ircc_req c1 t1 t0 oc) := by
  have htime : (send_ircc_req c1 t1 t0 outcome).2.2 = some t1 := by
    rw [send_ircc_req_eq c1 t1 t0 outcome h1]
  refine ⟨?_, ?_, ?_, ?_, ?_, ?_⟩
  · rintro rfl
    rw [send_ircc_req_eq c1 t1 none outcome h1]
    simp
  · rintro u rfl hgt
    rw [send_ircc_req_eq c1 t1 (some u) outcome h1]
    simp [hgt]
  · rintro u rfl hle
    have hngt : ¬(t1 - u > 600) := by omega
    rw [send_ircc_req_eq c1 t1 (some u) outcome h1]
    simp [hngt]
  · intro hle
    have hngt : ¬(t2 - t1 > 600) := by omega
    rw [htime, send_ircc_req_eq c2 t2 (some t1) outcome h2]
    simp [hngt]
  · intro hgt
    rw [htime, send_ircc_req_eq c2 t2 (some t1) outcome h2]
    simp [hgt]
  · intro oc hoc
    rw [send_ircc_req_eq c1 t1 t0 outcome h1, send_ircc_req_eq c1 t1 t0 oc h1,
      hoc c1 h1]

/-- C7 witness: with no prior timestamp the power-on code is preceded by
exactly one empty ping; a second send 300 seconds later goes out alone. -/
theorem send_ircc_wake_spec_witness :
    send_ircc_req "AAAAAQAAAAEAAAAuAw==" 1000 none (fun _ => .ok true)
      = (.ok true, ["", "AAAAAQAAAAEAAAAuAw=="], some 1000)
    ∧ (send_ircc_req "AAAAAQAAAAEAAAAuAw==" 1300
        (send_ircc_req "AAAAAQAAAAEAAAAuAw==" 1000 none (fun _ => .ok true)).2.2
        (fun _ => .ok true)).2.1 = ["AAAAAQAAAAEAAAAuAw=="] :=
  ⟨(send_ircc_wake_spec "AAAAAQAAAAEAAAAuAw==" "AAAAAQAAAAEAAAAuAw==" 1000 1300 none
      (fun _ => .ok true) (by decide) (by decide)).1 rfl,
   (send_ircc_wake_spec "AAAAAQAAAAEAAAAuAw==" "AAAAAQAAAAEAAAAuAw==" 1000 1300 none
      (fun _ => .ok true) (by decide) (by decide)).2.2.2.1 (by omega)⟩

/-! ## Claim C8: pagination in `get_content_list_full` -/

theorem content_loop_eq (pages : Nat → Nat → List Val) (total : Nat)
    (l : List Nat) (acc : List Val) :
    content_loop pages total l acc
      = acc ++ (l.map (fun i => pages i (min 50 (total - i)))).flatten := by
  induction l generalizing acc with
  | nil => simp [content_loop]
  | cons i rest ih => simp [content_loop, ih]

theorem range_by_50_length (start stop : Nat) :
    (range_by_50 start stop).length = (stop - start + 49) / 50 := by
  rw [range_by_50]
  split
  · rename_i hlt
    rw [List.length_cons, range_by_50_length (start + 50) stop]
    omega
  · rename_i hge
    rw [List.length_nil]
    omega
termination_by stop - start
decreasing_by omega

/-- C8: for a source with `total` reported items, `get_content_list_full`
issues `⌈total/50⌉` page requests — the pages start at 0, 50, 100, … with
counts `min 50 (total - index)` — and returns the per-page results
concatenated in page order (no request at all when `total = 0`). -/
theorem get_content_list_full_spec (pages : Nat → Nat → List Val) (total : Nat) :
    (range_by_50 0 total).length = (total + 49) / 50
    ∧ get_content_list_full pages total
        = ((range_by_50 0 total).map (fun i => pages i (min 50 (total - i)))).flatten := by
  constructor
  · have h := range_by_50_length 0 total
    simpa using h
  · simp [get_content_list_full, content_loop_eq]

/-! ## Claim C1: what `normalize_cookies` strips -/

theorem match_ci_self (ls cs : List Char) : match_ci ls (ls ++ cs) = some cs := by
  induction ls with
  | nil => simp [match_ci]
  | cons l ls ih => simp [match_ci, ih]

theorem greedy_tail_hit {rest : List Char} {d r : Nat}
    (h : try_tail_at rest d = some r) : greedy_tail rest d = some r := by
  cases d with
  | zero => simpa [greedy_tail] using h
  | succ d => simp [greedy_tail, h]

theorem dot_run_eq_length {mid : List Char} (h : ∀ c ∈ mid, c ≠ '\n') :
    dot_run mid = mid.length := by
  unfold dot_run
  rw [List.takeWhile_eq_self_iff.mpr]
  intro x hx
  simpa using h x hx

/-- The regex matches at the very start of `"; expires=" ++ mid` and, for a
newline-free tail, greedily swallows everything to the end of the string. -/
theorem match_expires_at_clause (mid : List Char) (hmid : ∀ c ∈ mid, c ≠ '\n') :
    match_expires_at (';' :: ' ' :: (expires_lit ++ mid)) = some [] := by
  have h1 : match_expires_head (';' :: ' ' :: (expires_lit ++ mid)) = some mid := by
    have hsp : py_space ' ' = true := by decide
    simp [match_expires_head, hsp, match_ci_self]
  have h2 : try_tail_at mid mid.length = some mid.length := by
    simp [try_tail_at, List.drop_length]
  have h3 : greedy_tail mid (dot_run mid) = some mid.length := by
    rw [dot_run_eq_length hmid]
    exact greedy_tail_hit h2
  simp [match_expires_at, h1, h3, List.drop_length]

/-- Within a prefix containing no match of the regex, `sub_expires` copies
characters until the expires clause, which it then deletes together with the
whole remainder of the string. -/
theorem sub_expires_prefix (pre mid : List Char)
    (hpre : ∀ i < pre.length,
      match_expires_at ((pre ++ ';' :: ' ' :: (expires_lit ++ mid)).drop i) = none)
    (hmid : ∀ c ∈ mid, c ≠ '\n') :
    sub_expires (pre ++ ';' :: ' ' :: (expires_lit ++ mid)) = pre := by
  induction pre with
  | nil =>
    rw [List.nil_append, sub_expires]
    rw [match_expires_at_clause mid hmid]
    show sub_expires [] = []
    rw [sub_expires]
  | cons c pre' ih =>
    have h0 := hpre 0 (by simp)
    rw [List.drop_zero] at h0
    rw [List.cons_append] at h0 ⊢
    rw [sub_expires]
    rw [h0]
    rw [ih]
    intro i hi
    have := hpre (i + 1) (by simpa using Nat.succ_lt_succ hi)
    rw [List.cons_append] at this
    simpa [List.drop_succ_cons] using this

/-- C1 (amended): for every list of raw `Set-Cookie` header strings and every
header in it of the form `pre ++ "; expires=" ++ mid` (first regex match at
the clause, no newline in the tail), `normalize_cookies` rewrites that header
to `pre` alone: the cookie's name, value, and the attributes written before
the expires clause are preserved, while the clause and everything after it —
including attributes such as `path=` — are stripped. -/
theorem normalize_cookies_strips_to_end (cookies : List (List Char))
    (pre mid : List Char)
    (hmem : (pre ++ ';' :: ' ' :: (expires_lit ++ mid)) ∈ cookies)
    (hpre : ∀ i < pre.length,
      match_expires_at ((pre ++ ';' :: ' ' :: (expires_lit ++ mid)).drop i) = none)
    (hmid : ∀ c ∈ mid, c ≠ '\n') :
    pre ∈ normalize_cookies cookies
    ∧ sub_expires (pre ++ ';' :: ' ' :: (expires_lit ++ mid)) = pre := by
  have hsub := sub_expires_prefix pre mid hpre hmid
  refine ⟨?_, hsub⟩
  have hmap := List.mem_map_of_mem sub_expires hmem
  rw [hsub] at hmap
  simpa [normalize_cookies] using hmap

/-- C1 witness: the device's own header shape from the upstream issue — the
expires clause is removed and name/value survive. -/
theorem normalize_cookies_strips_to_end_witness :
    "auth=A5Gn0W4l".toList ∈
      normalize_cookies
        ["auth=A5Gn0W4l".toList ++ ';' :: ' ' ::
          (expires_lit ++ "Thu, 06-Oct-2022 12:49:26 GMT".toList)] :=
  (normalize_cookies_strips_to_end
    ["auth=A5Gn0W4l".toList ++ ';' :: ' ' ::
      (expires_lit ++ "Thu, 06-Oct-2022 12:49:26 GMT".toList)]
    "auth=A5Gn0W4l".toList "Thu, 06-Oct-2022 12:49:26 GMT".toList
    (List.mem_singleton.mpr rfl) (by decide) (by decide)).1

/-- C1 counterexample: a `path=` attribute written after the expires clause is
not preserved — the substitution deletes everything from the clause to the end
of the header, so the parsed result of the normalized header has no `path`
attribute even though the raw header carried `path=/sony/`. -/
theorem normalize_cookies_after_expires_counterexample :
    normalize_cookies
        ["auth=abc; expires=Thu, 06-Oct-2022 12:49:26 GMT; path=/sony/".toList]
      = ["auth=abc".toList]
    ∧ (parse_cookie
        "auth=abc; expires=Thu, 06-Oct-2022 12:49:26 GMT; path=/sony/".toList).2.lookup
        "path".toList = some "/sony/".toList
    ∧ (parse_cookie "auth=abc".toList).2.lookup "path".toList = none := by
  refine ⟨?_, by decide, by decide⟩
  have heq : "auth=abc; expires=Thu, 06-Oct-2022 12:49:26 GMT; path=/sony/".toList
      = "auth=abc".toList ++ ';' :: ' ' ::
        (expires_lit ++ "Thu, 06-Oct-2022 12:49:26 GMT; path=/sony/".toList) := by
    decide
  rw [heq]
  have hsub := sub_expires_prefix "auth=abc".toList
    "Thu, 06-Oct-2022 12:49:26 GMT; path=/sony/".toList (by decide) (by decide)
  simp only [normalize_cookies, List.map_cons, List.map_nil]
  rw [hsub]

end Pybravia
